import Mathlib

/-!
Shallow embedding of the ABI-checker review pipeline of this repository
(`abichecker/abichecker.py`, `abichecker/abichecker_dbmodel.py`,
`osclib/cpio.py`) and proofs about it.

Conventions: Python `None`/`True`/`False` tri-state review verdicts are
modelled as `Option Bool` (`none` = recheck later / Unknown,
`some true` = accept / Compatible, `some false` = decline / Incompatible).
Python dicts keyed by strings become association lists or explicit lookup
functions; Python sets become lists (iteration order made explicit).
Byte strings are `List Nat` of byte values.
-/

/-- `MR = namedtuple('MatchRepo', ('srcrepo', 'dstrepo', 'arch'))`
(abichecker.py line 36). -/
structure MR where
  srcrepo : String
  dstrepo : String
  arch : String
deriving DecidableEq, Repr

/-- The `overall` update at abichecker.py lines 399-402, executed per
recorded pair result `r`:
`if overall is None: overall = r` ;
`elif overall == True and r == False: overall = r`. -/
def updateOverall (overall : Option Bool) (r : Bool) : Option Bool :=
  if overall = none then some r
  else if overall = some true ∧ r = false then some r
  else overall

/-- Rank of a verdict in the dominance order Unknown < Compatible < Incompatible. -/
def verdictRank : Option Bool → Nat
  | none => 0
  | some true => 1
  | some false => 2

/-- The `except FetchError` handlers at abichecker.py lines 316-320 and
337-341: `if ret: ret = None` (Python truthiness: only `True` is truthy
among `True`/`False`/`None`). -/
def fetchErrorStep (ret : Option Bool) : Option Bool :=
  if ret = some true then none else ret

/-- The `except DistUrlMismatch` handlers at abichecker.py lines 307-311 and
328-332: `if ret == True: ret = None`. -/
def distUrlMismatchStep (ret : Option Bool) : Option Bool :=
  if ret = some true then none else ret

/-- `run_abi_checker` (abichecker.py lines 659-672) interprets the exit code
`r` of `abi-compliance-checker`: `if r not in (0, 1): return None` ;
`return r == 0`. -/
def run_abi_checker (r : Int) : Option Bool :=
  if ¬(r = 0 ∨ r = 1) then none
  else some (r = 0)

/-- The recording step at abichecker.py lines 396-398: a `LibResult` row is
appended only when `run_abi_checker` returned a boolean (`if r is not None`).
We record just the boolean `compatible` field. -/
def recordLibResult (libresults : List Bool) (r : Option Bool) : List Bool :=
  match r with
  | some b => libresults ++ [b]
  | none => libresults

/-- C3: the overall per-report verdict is combined by the dominance rule
Incompatible > Compatible > Unknown (the update is exactly `max` under
`verdictRank`); once the overall verdict is Incompatible (`some false`) it
never changes under any further sequence of pair outcomes; and the outcome
sequence [Compatible, Compatible, Incompatible, Compatible] yields overall
Incompatible. -/
theorem overall_dominance :
    (∀ o : Option Bool, ∀ r : Bool,
      verdictRank (updateOverall o r) = max (verdictRank o) (verdictRank (some r))) ∧
    (∀ l : List Bool, l.foldl updateOverall (some false) = some false) ∧
    [true, true, false, true].foldl updateOverall none = some false := by
  refine ⟨by decide, ?_, by decide⟩
  intro l
  induction l with
  | nil => rfl
  | cons b t ih =>
      simpa [updateOverall] using ih

/-- C4: a FetchError (or DistUrlMismatch) after the verdict reached
Compatible (`some true`) downgrades it to Unknown (`none`); an Unknown
verdict stays Unknown; an Incompatible verdict (`some false`) stays
Incompatible.  Since these three cases exhaust the verdict type, the
handlers never produce Incompatible from a non-Incompatible verdict. -/
theorem fetchError_downgrades_to_unknown :
    fetchErrorStep (some true) = none ∧
    fetchErrorStep none = none ∧
    fetchErrorStep (some false) = some false ∧
    distUrlMismatchStep (some true) = none ∧
    distUrlMismatchStep none = none ∧
    distUrlMismatchStep (some false) = some false := by
  decide

/-- C7: compare-tool exit code 0 yields Compatible and appends a
`compatible = true` LibResult, exit code 1 yields Incompatible and appends a
`compatible = false` LibResult, and any other exit code yields Unknown with
no LibResult appended. -/
theorem abi_checker_exit_codes (r : Int) (h0 : r ≠ 0) (h1 : r ≠ 1) :
    run_abi_checker 0 = some true ∧
    run_abi_checker 1 = some false ∧
    run_abi_checker r = none ∧
    (∀ acc : List Bool,
      recordLibResult acc (run_abi_checker 0) = acc ++ [true] ∧
      recordLibResult acc (run_abi_checker 1) = acc ++ [false] ∧
      recordLibResult acc (run_abi_checker r) = acc) := by
  have hr : run_abi_checker r = none := by
    simp [run_abi_checker, h0, h1]
  refine ⟨by decide, by decide, hr, ?_⟩
  intro acc
  refine ⟨?_, ?_, ?_⟩
  · simp [run_abi_checker, recordLibResult]
  · norm_num [run_abi_checker, recordLibResult]
  · simp [hr, recordLibResult]

/-- Witness for `abi_checker_exit_codes` at the concrete exit code 2. -/
theorem abi_checker_exit_codes_witness :
    run_abi_checker 2 = none :=
  (abi_checker_exit_codes 2 (by decide) (by decide)).2.2.1

/-- One entry of the build-result map `rmap` built by `ensure_settled`
(abichecker.py lines 886-895) from `osc.core.get_package_results`: the
`dirty` flag and the status `code` of one (repository, arch). -/
structure BuildRes where
  dirty : Bool
  code : String
deriving DecidableEq, Repr

/-- The two exception outcomes of `ensure_settled`. -/
inductive SettleError where
  | notReadyYet (reason : String)
  | sourceBroken
deriving DecidableEq, Repr

/-- `ensure_settled` (abichecker.py lines 897-909): iterate the matched
triples in order; for each, a missing `rmap` entry raises
NotReadyYet("no result"), a set dirty flag raises NotReadyYet("dirty"),
code `broken` raises SourceBroken, any code outside
{succeeded, locked, excluded} raises NotReadyYet(code). The first failing
triple determines the exception. -/
def ensure_settled (rmap : String × String → Option BuildRes) :
    List MR → Except SettleError Unit
  | [] => .ok ()
  | mr :: rest =>
    match rmap (mr.srcrepo, mr.arch) with
    | none => .error (.notReadyYet "no result")
    | some res =>
      if res.dirty then .error (.notReadyYet "dirty")
      else if res.code = "broken" then .error .sourceBroken
      else if ¬(res.code ∈ ["succeeded", "locked", "excluded"]) then
        .error (.notReadyYet res.code)
      else ensure_settled rmap rest

/-- A triple passes the settledness check: entry present, not dirty,
terminal code. -/
def tripleSettled (rmap : String × String → Option BuildRes) (mr : MR) : Bool :=
  match rmap (mr.srcrepo, mr.arch) with
  | none => false
  | some res => !res.dirty && (res.code ∈ ["succeeded", "locked", "excluded"])

/-- Concrete build-result map for the C2 counterexample: the first matched
triple has no build-result entry at all, the second one has a present,
non-dirty entry with code `broken`. -/
def rmapC2 : String × String → Option BuildRes :=
  fun k => if k = ("r2", "a2") then some ⟨false, "broken"⟩ else none

/-- C2 counterexample: a matched triple (the second) has status code
`broken`, yet `ensure_settled` raises NotReadyYet — not SourceBroken —
because the first triple's missing build-result entry is hit first.
SourceBroken does not take precedence across triples. -/
theorem ensure_settled_broken_counterexample :
    rmapC2 ("r2", "a2") = some ⟨false, "broken"⟩ ∧
    ensure_settled rmapC2 [⟨"r1", "d1", "a1"⟩, ⟨"r2", "d2", "a2"⟩]
      = .error (.notReadyYet "no result") ∧
    SettleError.notReadyYet "no result" ≠ SettleError.sourceBroken := by
  refine ⟨rfl, rfl, by decide⟩

/-- C2 amended: `ensure_settled` raises at the first failing triple. If
every triple passes (present, non-dirty, terminal code) the check
succeeds; and if every triple before `mr` passes while `mr` has a
present, non-dirty entry with code `broken`, SourceBroken is raised. -/
theorem ensure_settled_first_failure (rmap : String × String → Option BuildRes) :
    (∀ l : List MR, (∀ m ∈ l, tripleSettled rmap m = true) →
      ensure_settled rmap l = .ok ()) ∧
    (∀ (pre : List MR) (mr : MR) (post : List MR) (res : BuildRes),
      (∀ m ∈ pre, tripleSettled rmap m = true) →
      rmap (mr.srcrepo, mr.arch) = some res →
      res.dirty = false → res.code = "broken" →
      ensure_settled rmap (pre ++ mr :: post) = .error .sourceBroken) := by
  have hstep : ∀ (m : MR) (rest : List MR), tripleSettled rmap m = true →
      ensure_settled rmap (m :: rest) = ensure_settled rmap rest := by
    intro m rest hm
    unfold tripleSettled at hm
    cases h : rmap (m.srcrepo, m.arch) with
    | none => rw [h] at hm; simp at hm
    | some res =>
        rw [h] at hm
        simp only [Bool.and_eq_true, Bool.not_eq_true', decide_eq_true_eq] at hm
        obtain ⟨hd, hc⟩ := hm
        have hnb : res.code ≠ "broken" := by
          intro hb
          rw [hb] at hc
          simp at hc
        conv_lhs => unfold ensure_settled
        simp [h, hd, hnb, hc]
  constructor
  · intro l hl
    induction l with
    | nil => rfl
    | cons m rest ih =>
        rw [hstep m rest (hl m (by simp))]
        exact ih (fun x hx => hl x (by simp [hx]))
  · intro pre mr post res hpre hres hdirty hbroken
    induction pre with
    | nil =>
        rw [List.nil_append]
        conv_lhs => unfold ensure_settled
        simp [hres, hdirty, hbroken]
    | cons m rest ih =>
        rw [List.cons_append, hstep m _ (hpre m (by simp))]
        exact ih (fun x hx => hpre x (by simp [hx]))

/-- Witness for `ensure_settled_first_failure`: with the first triple
settled (succeeded) and the second broken, SourceBroken is raised. -/
theorem ensure_settled_first_failure_witness :
    ensure_settled
      (fun k => if k = ("r1", "a1") then some ⟨false, "succeeded"⟩
                else if k = ("r2", "a2") then some ⟨false, "broken"⟩ else none)
      ([⟨"r1", "d1", "a1"⟩] ++ ⟨"r2", "d2", "a2"⟩ :: [])
      = .error .sourceBroken :=
  (ensure_settled_first_failure _).2
    [⟨"r1", "d1", "a1"⟩] ⟨"r2", "d2", "a2"⟩ [] ⟨false, "broken"⟩
    (by decide) (by decide) rfl rfl

/-- The two exception outcomes of the build-success verification at the end
of `findrepos`. -/
inductive FindreposError where
  | notReadyYet
  | noBuildSuccess
deriving DecidableEq, Repr

/-- The build-success verification at the end of `findrepos`
(abichecker.py lines 960-969). `srcrepos` is the optional set of
(repo, arch) pairs fetched by `get_buildsuccess_repos` for the source
package at its exact `verifymd5`, scoped to the destination project.
`lastArch` is the value the loop variable `arch` holds after the repository
loops earlier in `findrepos` (lines 928-931 / 944-950): the final pass at
line 967 tests `(mr.srcrepo, arch) not in srcrepos` — with that leftover
`arch`, not with `mr.arch`. -/
def findreposBuildCheck (matchrepos : List MR) (lastArch : String)
    (srcrepos : Option (List (String × String))) : Except FindreposError Unit :=
  match srcrepos with
  | none => .error .notReadyYet
  | some rs =>
    if rs = [] then .error .noBuildSuccess
    else if matchrepos.all (fun mr => decide ((mr.srcrepo, lastArch) ∈ rs)) then
      .ok ()
    else .error .noBuildSuccess

/-- The check C1 describes: every matched triple's own `(srcrepo, arch)`
pair must be present in the successful-build set. -/
def allTriplesBuilt (matchrepos : List MR) (rs : List (String × String)) : Bool :=
  matchrepos.all (fun mr => decide ((mr.srcrepo, mr.arch) ∈ rs))

/-- C1: `findrepos` validates successful-build membership with the
left-over loop variable `arch` instead of each triple's own `mr.arch`.
Concretely, with matched triples (repo, standard, i586) and
(repo, standard, x86_64), last-iterated arch x86_64, and a
successful-build set containing only (repo, x86_64): the triple
(repo, standard, i586) has its (srcRepo, arch) pair absent from the set,
so the claim demands NoBuildSuccess, yet the code's check passes. -/
theorem findrepos_buildcheck_uses_stale_arch :
    allTriplesBuilt
      [⟨"repo", "standard", "i586"⟩, ⟨"repo", "standard", "x86_64"⟩]
      [("repo", "x86_64")] = false ∧
    findreposBuildCheck
      [⟨"repo", "standard", "i586"⟩, ⟨"repo", "standard", "x86_64"⟩]
      "x86_64" (some [("repo", "x86_64")]) = .ok () := by
  exact ⟨rfl, rfl⟩

/-- Library lists as produced by `compute_fetchlist`: Python dict
`lib path → set of alias basenames`, modelled as an association list. -/
abbrev LibList := List (String × List String)

/-- The reverse alias index built at abichecker.py lines 344-347:
`src_aliases[a]` holds every source library whose alias set contains `a`.
We return that set as the list of matching source libraries. -/
def srcAliasMatches (src_libs : LibList) (a : String) : List String :=
  (src_libs.filter (fun p => a ∈ p.2)).map (fun p => p.1)

/-- The pairing loop at abichecker.py lines 352-365. For each destination
library: if the same path exists on the source side it pairs with itself;
otherwise each of the DESTINATION library's aliases is looked up in the
source alias index and the library pairs with every match found; if
neither step finds anything, the library is recorded as a
"no longer packaged" warning. Returns (pairs, warned libraries). -/
def computePairs (dst_libs src_libs : LibList) : List (String × String) × List String :=
  dst_libs.foldl
    (fun acc p =>
      if src_libs.any (fun q => q.1 = p.1) then
        (acc.1 ++ [(p.1, p.1)], acc.2)
      else
        let found := p.2.flatMap
          (fun a => (srcAliasMatches src_libs a).map (fun l => (p.1, l)))
        if found = [] then (acc.1, acc.2 ++ [p.1])
        else (acc.1 ++ found, acc.2))
    ([], [])

/-- C5 counterexample: with `dst = {"liba.so.1": {}}` (no destination
aliases) and `src = {"liba.so.2": {"liba.so.1"}}`, the pairing loop
produces NO pairs — the alias lookup runs over the destination library's
own (empty) alias set, not over its name — and records one
"no longer packaged" warning, contradicting the claimed pair set
{("liba.so.1", "liba.so.2")}. -/
theorem pairer_counterexample :
    computePairs [("liba.so.1", [])] [("liba.so.2", ["liba.so.1"])]
      = ([], ["liba.so.1"]) ∧
    ([] : List (String × String)) ≠ [("liba.so.1", "liba.so.2")] := by
  exact ⟨rfl, by decide⟩

/-- C5 amended: the destination library itself must carry an alias that a
source library also carries. With `dst = {"liba.so.1": {"liba.so.1"}}` and
`src = {"liba.so.2": {"liba.so.1"}}` the produced pair set is exactly
{("liba.so.1", "liba.so.2")}; with the original `dst = {"liba.so.1": {}}`
the pair set is empty and "liba.so.1" is warned about. -/
theorem pairer_amended :
    computePairs [("liba.so.1", ["liba.so.1"])] [("liba.so.2", ["liba.so.1"])]
      = ([("liba.so.1", "liba.so.2")], []) ∧
    computePairs [("liba.so.1", [])] [("liba.so.2", ["liba.so.1"])]
      = ([], ["liba.so.1"]) := by
  exact ⟨rfl, rfl⟩

/-- Lookup in `mapped = {(mr.dstrepo, mr.arch): mr for mr in originrepos}`
(abichecker.py line 481); as in a Python dict comprehension a later
element with the same key overwrites an earlier one. -/
def mappedLookup (originrepos : List MR) (key : String × String) : Option MR :=
  originrepos.reverse.find? (fun o => (o.dstrepo, o.arch) = key)

/-- The remapping loop of `_maintenance_hack` at abichecker.py lines
485-497: each original matched triple whose `(dstrepo, arch)` key is
absent from `mapped` is dropped with a warning (`continue`, non-fatal);
otherwise the triple is replaced by
`MR(mr.srcrepo, mapped[(mr.dstrepo, mr.arch)].srcrepo, mr.arch)`. -/
def maintenanceRemap (originrepos : List MR) : List MR → List MR
  | [] => []
  | mr :: rest =>
    match mappedLookup originrepos (mr.dstrepo, mr.arch) with
    | none => maintenanceRemap originrepos rest
    | some o => ⟨mr.srcrepo, o.srcrepo, mr.arch⟩ :: maintenanceRemap originrepos rest

/-- C9 counterexample: with original triple (s1, d1, a1) and origin
matching (o1, d1, a1), the rewritten triple is (s1, o1, a1): the
DESTINATION repo field is rewritten to the origin matching's source repo
while the source field stays — not, as claimed, the source side rewritten
with the other fields unchanged (which would give (o1, d1, a1)). -/
theorem maintenance_remap_counterexample :
    maintenanceRemap [⟨"o1", "d1", "a1"⟩] [⟨"s1", "d1", "a1"⟩]
      = [⟨"s1", "o1", "a1"⟩] ∧
    MR.dstrepo ⟨"s1", "o1", "a1"⟩ ≠ "d1" ∧
    MR.srcrepo ⟨"s1", "o1", "a1"⟩ = "s1" ∧
    (⟨"s1", "o1", "a1"⟩ : MR) ≠ ⟨"o1", "d1", "a1"⟩ := by
  refine ⟨rfl, by decide, rfl, by decide⟩

/-- C9 amended: every original triple whose `(dstrepo, arch)` has no entry
in the recursively computed map is dropped (without failing the run), and
every remaining triple keeps its `srcrepo` and `arch` while its `dstrepo`
is rewritten to the mapped origin triple's `srcrepo`. -/
theorem maintenance_remap_spec (originrepos myrepos : List MR) :
    maintenanceRemap originrepos myrepos
      = myrepos.filterMap (fun mr =>
          (mappedLookup originrepos (mr.dstrepo, mr.arch)).map
            (fun o => MR.mk mr.srcrepo o.srcrepo mr.arch)) := by
  induction myrepos with
  | nil => rfl
  | cons mr rest ih =>
      cases h : mappedLookup originrepos (mr.dstrepo, mr.arch) with
      | none => simp [maintenanceRemap, h, ih]
      | some o => simp [maintenanceRemap, h, ih]

/-- `PROJECT_BLACKLIST` (abichecker.py lines 39-46): the blacklisted
destination projects (the dict values are only human-readable messages,
so we keep the keys). -/
def PROJECT_BLACKLIST : List String :=
  ["SUSE:SLE-11:Update", "SUSE:SLE-11-SP1:Update", "SUSE:SLE-11-SP2:Update",
   "SUSE:SLE-11-SP3:Update", "SUSE:SLE-11-SP4:Update", "SUSE:SLE-11-SP5:Update"]

/-- Observable outcome of `check_source_submission` for C10: the returned
verdict, the number of reports appended to `self.reports`, and whether the
rest of the pipeline (repo matching, extraction, pairing, diffing) ran. -/
structure SubmissionOutcome where
  ret : Option Bool
  reportsAppended : Nat
  ranPipeline : Bool
deriving DecidableEq, Repr

/-- The head of `check_source_submission` (abichecker.py lines 188-197):
`if dst_project is None and src_package == 'patchinfo': return None`, then
`if dst_project in PROJECT_BLACKLIST: log info; return True`. Everything
after the blacklist check is abstracted as `rest`, the outcome the
remainder of the function would produce. -/
def checkSourceSubmissionHead (dst_project : Option String) (src_package : String)
    (rest : SubmissionOutcome) : SubmissionOutcome :=
  if dst_project = none ∧ src_package = "patchinfo" then ⟨none, 0, false⟩
  else
    match dst_project with
    | some d => if d ∈ PROJECT_BLACKLIST then ⟨some true, 0, false⟩ else rest
    | none => rest

/-- C10: for every blacklisted destination project, every source package
name and whatever the rest of the function would have produced,
`check_source_submission` returns True (accept) immediately, appends no
report and never reaches repo matching, extraction, pairing or diffing. -/
theorem blacklist_early_accept (d : String) (hd : d ∈ PROJECT_BLACKLIST)
    (src_package : String) (rest : SubmissionOutcome) :
    checkSourceSubmissionHead (some d) src_package rest
      = ⟨some true, 0, false⟩ := by
  simp [checkSourceSubmissionHead, hd]

/-- Witness for `blacklist_early_accept` at the first blacklisted project,
with a remainder outcome that would have declined after running the
pipeline and appending a report. -/
theorem blacklist_early_accept_witness :
    checkSourceSubmissionHead (some "SUSE:SLE-11:Update") "pkg"
      ⟨some false, 1, true⟩ = ⟨some true, 0, false⟩ :=
  blacklist_early_accept "SUSE:SLE-11:Update" (by decide) "pkg" ⟨some false, 1, true⟩

/-- `LibResult` namedtuple (abichecker.py line 75); `result` is the
resolved boolean `compatible`. -/
structure LibResult where
  src_repo : String
  src_lib : String
  dst_repo : String
  dst_lib : String
  arch : String
  htmlreport : String
  result : Bool
deriving DecidableEq, Repr

/-- `Report` namedtuple (abichecker.py line 73): per-submission aggregate
with its `LibResult` list and tri-state overall `result`. -/
structure Report where
  src_project : String
  src_package : String
  src_rev : Option String
  dst_project : String
  dst_package : String
  reports : List LibResult
  result : Option Bool
deriving DecidableEq, Repr

/-- Content row of the `request` table (abichecker_dbmodel.py lines 16-23);
auto ids and timestamps omitted. -/
structure RequestRow where
  id : Nat
  state : String
  result : Option String
deriving DecidableEq, Repr

/-- Content row of the `libreport` table (abichecker_dbmodel.py lines 50-65). -/
structure LibReportRow where
  src_repo : String
  src_lib : String
  dst_repo : String
  dst_lib : String
  arch : String
  htmlreport : String
  result : Bool
deriving DecidableEq, Repr

/-- Content row of the `abicheck` table (abichecker_dbmodel.py lines 34-48)
together with its nested `libreport` rows: the relationship is declared
with `cascade="all, delete-orphan"`, so deleting an ABICheck row deletes
its LibReport rows with it. -/
structure ABICheckRow where
  request_id : Nat
  src_project : String
  src_package : String
  src_rev : Option String
  dst_project : String
  dst_package : String
  result : Option Bool
  reports : List LibReportRow
deriving DecidableEq, Repr

/-- The database state touched by `save_reports_to_db`. -/
structure DBState where
  requests : List RequestRow
  abichecks : List ABICheckRow
deriving DecidableEq, Repr

def toLibReportRow (lr : LibResult) : LibReportRow :=
  ⟨lr.src_repo, lr.src_lib, lr.dst_repo, lr.dst_lib, lr.arch, lr.htmlreport, lr.result⟩

/-- The rows inserted for one `Report` by the loop at abichecker.py lines
605-640: the ABICheck row is always inserted; its LibReport rows are
inserted only when the report's overall result is not None
(`if r.result is None: continue` skips the inner loop). -/
def toABICheckRow (reqid : Nat) (r : Report) : ABICheckRow :=
  ⟨reqid, r.src_project, r.src_package, r.src_rev, r.dst_project, r.dst_package,
   r.result,
   match r.result with
   | none => []
   | some _ => r.reports.map toLibReportRow⟩

/-- `save_reports_to_db` (abichecker.py lines 589-642), effect on the
stored rows: if the Request row exists, delete every ABICheck row of that
request (cascading to nested LibReports) and update the Request's
state/result; otherwise insert a new Request row. Then insert one ABICheck
row per report. -/
def save_reports_to_db (reqid : Nat) (st : String) (res : Option String)
    (reports : List Report) (db : DBState) : DBState :=
  let db1 : DBState :=
    if db.requests.any (fun q => q.id == reqid) then
      { requests := db.requests.map
          (fun q => if q.id == reqid then { q with state := st, result := res } else q),
        abichecks := db.abichecks.filter (fun r => r.request_id != reqid) }
    else
      { requests := db.requests ++ [⟨reqid, st, res⟩],
        abichecks := db.abichecks }
  { db1 with abichecks := db1.abichecks ++ reports.map (toABICheckRow reqid) }

/-- C8: persisting the same reports for the same request a second time
leaves exactly the same stored rows as persisting once — delete-then-insert
makes re-running idempotent, never additive. The hypothesis is the
foreign-key invariant: if the Request row is absent, no ABICheck row for
that request exists either. -/
theorem save_reports_idempotent (reqid : Nat) (st : String) (res : Option String)
    (reports : List Report) (db : DBState)
    (hfk : db.requests.any (fun q => q.id == reqid) = true ∨
           db.abichecks.all (fun r => r.request_id != reqid) = true) :
    save_reports_to_db reqid st res reports (save_reports_to_db reqid st res reports db)
      = save_reports_to_db reqid st res reports db := by
  set u : RequestRow → RequestRow :=
    fun q => if q.id == reqid then { q with state := st, result := res } else q with hu
  set p : ABICheckRow → Bool := fun r => r.request_id != reqid with hp
  set newRows : List ABICheckRow := reports.map (toABICheckRow reqid) with hnew
  have hnewfilter : newRows.filter p = [] := by
    rw [List.filter_eq_nil_iff]
    intro a ha
    rw [hnew] at ha
    obtain ⟨r, _, hr⟩ := List.mem_map.mp ha
    rw [hp]
    simp [← hr, toABICheckRow]
  have huu : ∀ q : RequestRow, u (u q) = u q := by
    intro q
    by_cases hq : q.id = reqid
    · simp [hu, hq]
    · simp [hu, hq]
  have huid : ∀ q : RequestRow, (u q).id = q.id := by
    intro q
    by_cases hq : q.id = reqid
    · simp [hu, hq]
    · simp [hu, hq]
  by_cases h1 : db.requests.any (fun q => q.id == reqid) = true
  · -- request row already present before the first save
    have hsave1 : save_reports_to_db reqid st res reports db
        = ⟨db.requests.map u, db.abichecks.filter p ++ newRows⟩ := by
      simp only [save_reports_to_db]
      rw [if_pos h1]
    have h2 : (db.requests.map u).any (fun q => q.id == reqid) = true := by
      obtain ⟨q, hqmem, hqid⟩ := List.any_eq_true.mp h1
      exact List.any_eq_true.mpr
        ⟨u q, List.mem_map.mpr ⟨q, hqmem, rfl⟩, by rw [huid]; exact hqid⟩
    rw [hsave1]
    simp only [save_reports_to_db]
    rw [if_pos h2]
    refine congrArg₂ DBState.mk ?_ ?_
    · rw [List.map_map]
      exact List.map_congr_left (fun q _ => huu q)
    · rw [List.filter_append, hnewfilter, List.filter_filter]
      simp
  · -- request row absent: a fresh Request row is inserted first
    have hall : db.abichecks.all (fun r => r.request_id != reqid) = true := by
      rcases hfk with hfk | hfk
      · exact absurd hfk h1
      · exact hfk
    have hsave1 : save_reports_to_db reqid st res reports db
        = ⟨db.requests ++ [⟨reqid, st, res⟩], db.abichecks ++ newRows⟩ := by
      simp only [save_reports_to_db]
      rw [if_neg h1]
    have h2 : ((db.requests ++ [⟨reqid, st, res⟩]) :
        List RequestRow).any (fun q => q.id == reqid) = true := by
      refine List.any_eq_true.mpr ⟨⟨reqid, st, res⟩, ?_, by simp⟩
      simp
    have hnone : ∀ q ∈ db.requests, u q = q := by
      intro q hq
      have hne : q.id ≠ reqid := by
        intro hqq
        exact h1 (List.any_eq_true.mpr ⟨q, hq, by simp [hqq]⟩)
      simp [hu, hne]
    rw [hsave1]
    simp only [save_reports_to_db]
    rw [if_pos h2]
    refine congrArg₂ DBState.mk ?_ ?_
    · rw [List.map_append, List.map_congr_left hnone]
      simp [hu]
    · rw [List.filter_append, hnewfilter, List.filter_eq_self.mpr]
      · simp
      · intro a ha
        exact List.all_eq_true.mp hall a ha

/-- Witness for `save_reports_idempotent`: double-save on an initially
empty database of a one-report submission. -/
theorem save_reports_idempotent_witness :
    save_reports_to_db 7 "done" (some "accepted")
        [⟨"sp", "pkg", some "r1", "dp", "pkg", [], some true⟩]
        (save_reports_to_db 7 "done" (some "accepted")
          [⟨"sp", "pkg", some "r1", "dp", "pkg", [], some true⟩] ⟨[], []⟩)
      = save_reports_to_db 7 "done" (some "accepted")
          [⟨"sp", "pkg", some "r1", "dp", "pkg", [], some true⟩] ⟨[], []⟩ :=
  save_reports_idempotent 7 "done" (some "accepted")
    [⟨"sp", "pkg", some "r1", "dp", "pkg", [], some true⟩] ⟨[], []⟩
    (Or.inr (by decide))

/-- ASCII bytes of a string literal (the byte values of a Python 2 `str` /
the intended content of a Python 3 `bytes` literal). -/
def asciiBytes (s : String) : List Nat :=
  s.data.map Char.toNat

/-- Value of one ASCII hex digit, as accepted by `int(v, 16)`. -/
def hexDigit? (c : Nat) : Option Nat :=
  if 48 ≤ c ∧ c ≤ 57 then some (c - 48)
  else if 97 ≤ c ∧ c ≤ 102 then some (c - 87)
  else if 65 ≤ c ∧ c ≤ 70 then some (c - 55)
  else none

/-- `int(v, 16)` on a byte string of hex digits (cpio.py line 43);
`none` models the ValueError on empty or non-hex input. -/
def hexValue? (bs : List Nat) : Option Nat :=
  if bs = [] then none
  else bs.foldl
    (fun acc c => match acc, hexDigit? c with
      | some a, some d => some (a * 16 + d)
      | _, _ => none)
    (some 0)

/-- The state a `CpioFile.__init__` (cpio.py lines 22-50) leaves behind:
its offset, the thirteen ASCII-hex header fields, the entry name and the
computed payload start. -/
structure CpioFileRec where
  off : Nat
  c_ino : Nat
  c_mode : Nat
  c_uid : Nat
  c_gid : Nat
  c_nlink : Nat
  c_mtime : Nat
  c_filesize : Nat
  c_devmajor : Nat
  c_devminor : Nat
  c_rdevmajor : Nat
  c_rdevminor : Nat
  c_namesize : Nat
  c_check : Nat
  name : List Nat
  payloadstart : Nat
deriving DecidableEq, Repr

/-- `CpioFile.__init__` (cpio.py lines 23-50) under the Python 2 semantics
the module was written for (the `"070701"` literal denoting the six ASCII
bytes of the magic): reject unaligned offsets, unpack the 110-byte fixed
header `6s` + 13 × `8s` (short buffer ⇒ struct.error), check the magic,
parse the thirteen fields as hex ints, read the `c_namesize - 1` byte
name, skip its NUL terminator and pad the payload start to 4-byte
alignment. -/
def cpioFileInit (buf : List Nat) (off : Nat) : Except String CpioFileRec :=
  if off % 4 ≠ 0 then .error "invalid offset"
  else
    let hdr := (buf.drop off).take 110
    if hdr.length ≠ 110 then .error "struct unpack: short buffer"
    else if hdr.take 6 ≠ asciiBytes "070701" then .error "invalid cpio header"
    else
      match (List.range 13).mapM
          (fun i => hexValue? ((hdr.drop (6 + 8 * i)).take 8)) with
      | none => .error "int: invalid hex field"
      | some ints =>
        let nlen := ints.getD 11 0 - 1
        if (buf.drop (off + 110)).length < nlen then
          .error "struct unpack: short name"
        else
          let nm := (buf.drop (off + 110)).take nlen
          let off2 := off + 110 + nlen + 1
          let pstart := if off2 % 4 ≠ 0 then off2 + (4 - off2 % 4) else off2
          .ok ⟨off, ints.getD 0 0, ints.getD 1 0, ints.getD 2 0, ints.getD 3 0,
               ints.getD 4 0, ints.getD 5 0, ints.getD 6 0, ints.getD 7 0,
               ints.getD 8 0, ints.getD 9 0, ints.getD 10 0, ints.getD 11 0,
               ints.getD 12 0, nm, pstart⟩

/-- `CpioFile.fin` (cpio.py lines 52-53) under the intended semantics:
the entry name equals `TRAILER!!!`. -/
def cpioFin (f : CpioFileRec) : Bool :=
  decide (f.name = asciiBytes "TRAILER!!!")

/-- `CpioFile.header` (cpio.py lines 58-59): the stored payload bytes. -/
def cpioHeader (buf : List Nat) (f : CpioFileRec) : List Nat :=
  (buf.drop f.payloadstart).take f.c_filesize

/-- `CpioFile.length` (cpio.py lines 61-65): header + name + payload,
payload padded to 4-byte alignment. -/
def cpioLength (f : CpioFileRec) : Nat :=
  f.payloadstart - f.off + f.c_filesize
    + (if f.c_filesize % 4 ≠ 0 then 4 - f.c_filesize % 4 else 0)

/-- `Cpio.next` iterated from an offset (cpio.py lines 14-19): parse an
entry, stop (StopIteration) without emitting it when it is the trailer,
otherwise emit it and continue at `off + length`. `fuel` bounds the number
of entries. -/
def cpioIter (buf : List Nat) : Nat → Nat → Except String (List CpioFileRec)
  | 0, _ => .error "out of fuel"
  | fuel + 1, off =>
    match cpioFileInit buf off with
    | .error e => .error e
    | .ok f =>
      if cpioFin f then .ok []
      else
        match cpioIter buf fuel (off + cpioLength f) with
        | .error e => .error e
        | .ok fs => .ok (f :: fs)

/-- Python 3 cross-type equality: a `bytes` value is never `==` to a `str`
value, whatever their contents. Under Python 3 the unpacked `fields[0]` is
`bytes` while the literal `"070701"` at cpio.py line 35 is `str`. -/
def pyBytesEqStr (_bytes : List Nat) (_str : String) : Bool :=
  false

/-- `CpioFile.__init__` as the module actually executes under Python 3
(its shebang interpreter): the magic comparison `fields[0] != "070701"`
compares `bytes` with `str`, so it is `True` for every buffer and the
invalid-header branch is always taken (the raise then even evaluates the
never-assigned `self.c_magic`). The final branch is unreachable. -/
def cpioFileInitPy3 (buf : List Nat) (off : Nat) : Except String CpioFileRec :=
  if off % 4 ≠ 0 then .error "invalid offset"
  else
    let hdr := (buf.drop off).take 110
    if hdr.length ≠ 110 then .error "struct unpack: short buffer"
    else if pyBytesEqStr (hdr.take 6) "070701" = false then
      .error "invalid cpio header"
    else cpioFileInit buf off

/-- A concrete well-formed newc archive: one file entry (name `a`,
4-byte payload `abcd`) followed by the trailer entry. -/
def cpioDemoBuf : List Nat :=
  asciiBytes "070701"
    ++ asciiBytes "00000000" ++ asciiBytes "00000000" ++ asciiBytes "00000000"
    ++ asciiBytes "00000000" ++ asciiBytes "00000000" ++ asciiBytes "00000000"
    ++ asciiBytes "00000004"
    ++ asciiBytes "00000000" ++ asciiBytes "00000000" ++ asciiBytes "00000000"
    ++ asciiBytes "00000000"
    ++ asciiBytes "00000002"
    ++ asciiBytes "00000000"
    ++ asciiBytes "a" ++ [0]
    ++ asciiBytes "abcd"
    ++ asciiBytes "070701"
    ++ asciiBytes "00000000" ++ asciiBytes "00000000" ++ asciiBytes "00000000"
    ++ asciiBytes "00000000" ++ asciiBytes "00000000" ++ asciiBytes "00000000"
    ++ asciiBytes "00000000"
    ++ asciiBytes "00000000" ++ asciiBytes "00000000" ++ asciiBytes "00000000"
    ++ asciiBytes "00000000"
    ++ asciiBytes "0000000b"
    ++ asciiBytes "00000000"
    ++ asciiBytes "TRAILER!!!" ++ [0]

set_option maxRecDepth 8000 in
/-- C6: on the concrete single-file archive, the parser under its intended
(Python 2) semantics yields exactly one file whose payload is byte-for-byte
the stored content `abcd`, stopping at the trailer without emitting it —
but the module as executed by Python 3 raises "invalid cpio header" on the
very first entry, because the magic comparison mixes `bytes` and `str`. -/
theorem cpio_single_file_archive :
    (cpioIter cpioDemoBuf 2 0).map (fun fs => fs.map (cpioHeader cpioDemoBuf))
      = .ok [asciiBytes "abcd"] ∧
    (cpioIter cpioDemoBuf 2 0).map (fun fs => fs.map CpioFileRec.name)
      = .ok [asciiBytes "a"] ∧
    cpioFileInitPy3 cpioDemoBuf 0 = .error "invalid cpio header" := by
  exact ⟨rfl, rfl, rfl⟩
